import Mathlib

/-
Verification of the Model Session Manager of the pyrobbot chat client.

The Python source under pyrobbot/ is shallowly embedded below.  Backend
calls (google.generativeai) are modelled by oracle functions passed in as
arguments; a call either raises (with the message of the exception) or
returns a response object, of which the code only ever observes its Python
truthiness and its .text attribute.  Floats are modelled as rationals and
Python exceptions as a small inductive of class plus message.
-/

namespace ChatBot

/-- A Python exception, identified by its class and its message (str(e)). -/
inductive PyError where
  | valueError (msg : String)
  | notImplementedError (msg : String)
  | exceptionError (msg : String)
  | validationError (msg : String)
  | attributeError (msg : String)
deriving DecidableEq, Repr

/-- The message of an exception, as str(e) renders it. -/
def PyError.msg : PyError → String
  | .valueError m => m
  | .notImplementedError m => m
  | .exceptionError m => m
  | .validationError m => m
  | .attributeError m => m

/-- Outcome of one backend generate call as the Python code observes it:
either the call raises with message e, or it returns a response object
whose truthiness is `truthy` and whose .text attribute is `text`. -/
inductive GenResult where
  | raise (e : String)
  | ok (truthy : Bool) (text : String)
deriving DecidableEq, Repr

/-- Decidable equality for Except results, used to evaluate runs of the
embedded code on concrete inputs. -/
instance {e a : Type} [DecidableEq e] [DecidableEq a] : DecidableEq (Except e a)
  | .ok x, .ok y =>
    if h : x = y then .isTrue (by rw [h]) else .isFalse (by intro hc; cases hc; exact h rfl)
  | .ok _, .error _ => .isFalse (by intro hc; cases hc)
  | .error _, .ok _ => .isFalse (by intro hc; cases hc)
  | .error x, .error y =>
    if h : x = y then .isTrue (by rw [h]) else .isFalse (by intro hc; cases hc; exact h rfl)

/-- The hard-coded preference list probed by initialize_gemini
(gemini_utils.py, the model_names local of the probe loop). -/
def initProbeModels : List String :=
  ["models/gemini-pro", "models/gemini-2.0-flash", "models/gemini-2.0-flash-lite"]

/-- The hard-coded fallback list walked by get_chat_response when the bound
chat fails (gemini_utils.py, the model_names local of the dispatch loop). -/
def sendFallbackModels : List String :=
  ["models/gemini-pro", "models/gemini-2.0-flash", "models/gemini-2.0-flash-lite"]

/-- The candidate list of get_gemini_chat: the requested model first, then
the hard-coded preference order (gemini_utils.py). -/
def chatCandidates (model : String) : List String :=
  [model, "models/gemini-pro", "models/gemini-2.0-flash", "models/gemini-2.0-flash-lite"]

/-- The probe loop condition `if response:` - true when the call did not
raise and the returned object is truthy. -/
def probeOk : GenResult → Bool
  | .raise _ => false
  | .ok truthy _ => truthy

/-- The probe loop of initialize_gemini: walk the list, return the first
model whose probe is truthy, none when the list is exhausted.  A raising or
falsy candidate is skipped silently (bare `except Exception: continue`). -/
def probeWalk (probe : String → GenResult) : List String → Option String
  | [] => none
  | m :: ms => if probeOk (probe m) then some m else probeWalk probe ms

/-- The models actually attempted by the probe loop, in order: the walk
stops right after the first truthy probe. -/
def probeAttempts (probe : String → GenResult) : List String → List String
  | [] => []
  | m :: ms => if probeOk (probe m) then [m] else m :: probeAttempts probe ms

/-- str(last_error) at the end of an exhausted walk; Python renders a still
unset last_error (None) as the string "None". -/
def strOfLastError : Option String → String
  | none => "None"
  | some e => e

/-- initialize_gemini (gemini_utils.py).  The key defaults to the
GOOGLE_API_KEY environment variable only when the argument is None; an
empty key fails the `if not api_key` guard.  `availableModels` stands for
genai.list_models(), `probe` for generate_content of the fixed probe
prompt on one model.  Every failure inside the outer try is re-raised as
ValueError with the prefix "Failed to initialize Gemini API: ". -/
def init_gemini (api_key envGoogle : Option String) (availableModels : List String)
    (probe : String → GenResult) : Except PyError Unit :=
  match (match api_key with | none => envGoogle | some k => some k) with
  | none => .error (.valueError "No Gemini API key provided")
  | some k =>
    if k = "" then .error (.valueError "No Gemini API key provided")
    else if availableModels = [] then
      .error (.valueError "Failed to initialize Gemini API: No models available. Check your API key.")
    else
      match probeWalk probe initProbeModels with
      | some _ => .ok ()
      | none =>
        .error (.valueError "Failed to initialize Gemini API: Failed to initialize with any available model")

/-- The candidate loop of get_gemini_chat: `start m` models constructing
GenerativeModel(m, generation_config, safety_settings) and calling
start_chat(history=[]).  The first success is returned (identified by its
model name); each failure is recorded as last_error and skipped. -/
def chatWalk (start : String → Except String Unit) :
    List String → Option String → Except PyError String
  | [], last =>
    .error (.exceptionError
      ("Failed to create Gemini chat instance with any model: " ++ strOfLastError last))
  | m :: ms, last =>
    match start m with
    | .ok _ => .ok m
    | .error e => chatWalk start ms (some e)

/-- get_gemini_chat (gemini_utils.py): walk the candidate list headed by
the requested model; the generation parameters do not influence the walk
and are abstracted into the start oracle. -/
def get_gemini_chat (model : String) (start : String → Except String Unit) :
    Except PyError String :=
  chatWalk start (chatCandidates model) none

/-- The dispatch condition `if response and response.text:` - the returned
text, provided the call did not raise, the object is truthy and the text
is non-empty. -/
def usableText : GenResult → Option String
  | .raise _ => none
  | .ok truthy t => if truthy && (t != "") then some t else none

/-- The stateless fallback loop of get_chat_response: try each model with
generate_content on the message; return the first usable text; a raising
candidate updates last_error, an unusable non-raising one does not; on
exhaustion raise ValueError mentioning str(last_error). -/
def fallbackWalk (gen : String → GenResult) :
    List String → Option String → Except PyError String
  | [], last =>
    .error (.valueError ("Failed to get response from any model: " ++ strOfLastError last))
  | m :: ms, last =>
    match gen m with
    | .raise e => fallbackWalk gen ms (some e)
    | .ok truthy t =>
      if truthy && (t != "") then .ok t else fallbackWalk gen ms last

/-- get_chat_response (gemini_utils.py).  `chat msg` models
chat.send_message(msg) on the bound session, `gen m msg` models stateless
generate_content of msg on model m.  The bound-session attempt is guarded
by a bare except and falls through to the fallback walk; the outer try
wraps any escaping error into Exception("Failed to get chat response: ...").
The stream flag is accepted and never read, as in the source. -/
def get_chat_response (chat : String → GenResult) (gen : String → String → GenResult)
    (message : String) (stream : Bool) : Except PyError String :=
  match
    (match usableText (chat message) with
     | some t => Except.ok t
     | none => fallbackWalk (fun m => gen m message) sendFallbackModels none) with
  | .ok t => .ok t
  | .error e => .error (.exceptionError ("Failed to get chat response: " ++ e.msg))

/-- Chat.send_message (chat_new.py): forwards to get_chat_response and
wraps any error once more into Exception("Failed to get chat response: ...");
the stream flag is forwarded unread. -/
def send_message (chat : String → GenResult) (gen : String → String → GenResult)
    (message : String) (stream : Bool) : Except PyError String :=
  match get_chat_response chat gen message stream with
  | .ok t => .ok t
  | .error e => .error (.exceptionError ("Failed to get chat response: " ++ e.msg))

/-- count_tokens (gemini_utils.py): len(text.split()) - a whitespace word
count, documented in the source as a rough estimate. -/
def isPySpace (c : Char) : Bool :=
  c = ' ' || c = '\t' || c = '\n' || c = '\x0d' || c = '\x0b' || c = '\x0c'

/-- Python str.split() with no separator: maximal runs of non-whitespace
characters, leading and trailing whitespace ignored.  `acc` holds the
current run, reversed. -/
def pySplitAux : List Char → List Char → List (List Char)
  | [], acc => if acc.isEmpty then [] else [acc.reverse]
  | c :: rest, acc =>
    if isPySpace c then
      if acc.isEmpty then pySplitAux rest [] else acc.reverse :: pySplitAux rest []
    else
      pySplitAux rest (c :: acc)

/-- len(text.split()) of count_tokens. -/
def count_tokens (text : String) : Nat :=
  (pySplitAux text.data []).length

/-- An independent characterization of the whitespace word count: scan the
text once, counting the positions where a word starts. -/
def wordCountAux : List Char → Bool → Nat
  | [], _ => 0
  | c :: rest, inWord =>
    if isPySpace c then wordCountAux rest false
    else if inWord then wordCountAux rest true
    else wordCountAux rest true + 1

/-- Whitespace-split word count, stated from the spec wording, to compare
against count_tokens. -/
def wordCount (text : String) : Nat :=
  wordCountAux text.data false

/-- estimate_cost (gemini_utils.py): (input/1000)*0.00025 + (output/1000)*0.0005,
floats modelled as rationals. -/
def estimate_cost (input_tokens output_tokens : ℤ) : ℚ :=
  (input_tokens / 1000 : ℚ) * (25 / 100000) + (output_tokens / 1000 : ℚ) * (5 / 10000)

/-- Modelled from the spec: section 4.2 defines estimate_usage(input_text,
output_text) -> (token_estimate, cost_estimate); the repository only has
count_tokens and estimate_cost under src/ and no combining function, so the
composition is taken from the spec words: count tokens of each text and
price them with estimate_cost. -/
def estimate_usage (input_text output_text : String) : (Nat × Nat) × ℚ :=
  ((count_tokens input_text, count_tokens output_text),
    estimate_cost (count_tokens input_text) (count_tokens output_text))

/-- The provider literal of ChatConfig. -/
inductive Provider where
  | openai
  | gemini
deriving DecidableEq, Repr

/-- GeminiConfig (chat_config_new.py), fields with their defaults. -/
structure GeminiConfig where
  model : String := "gemini-pro"
  temperature : ℚ := 7 / 10
  top_p : ℚ := 4 / 5
  top_k : ℤ := 40
  max_output_tokens : ℤ := 2048
  api_key : Option String := none
deriving DecidableEq, Repr

/-- The pydantic field constraints of GeminiConfig: the model Literal and
the Field(ge/le) bounds, checked at instantiation. -/
def GeminiConfig.validate (c : GeminiConfig) : Bool :=
  (c.model == "gemini-pro")
    && decide (0 ≤ c.temperature) && decide (c.temperature ≤ 1)
    && decide (0 ≤ c.top_p) && decide (c.top_p ≤ 1)
    && decide (1 ≤ c.top_k)
    && decide (1 ≤ c.max_output_tokens)

/-- Constructing a GeminiConfig: pydantic validates on instantiation and
raises ValidationError when a field is out of range. -/
def GeminiConfig.construct (c : GeminiConfig) : Except PyError GeminiConfig :=
  if c.validate then .ok c else .error (.validationError "GeminiConfig validation failed")

/-- The documented ranges of the gemini fields, as the spec states them. -/
def GeminiConfig.InRange (c : GeminiConfig) : Prop :=
  c.model = "gemini-pro"
    ∧ 0 ≤ c.temperature ∧ c.temperature ≤ 1
    ∧ 0 ≤ c.top_p ∧ c.top_p ≤ 1
    ∧ 1 ≤ c.top_k
    ∧ 1 ≤ c.max_output_tokens

/-- OpenAIConfig (chat_config_new.py), fields with their defaults. -/
structure OpenAIConfig where
  model : String := "gpt-3.5-turbo"
  temperature : ℚ := 7 / 10
  top_p : ℚ := 1
  presence_penalty : ℚ := 0
  frequency_penalty : ℚ := 0
  max_tokens : Option ℤ := none
  api_key : Option String := none
deriving DecidableEq, Repr

/-- The pydantic field constraints of OpenAIConfig. -/
def OpenAIConfig.validate (c : OpenAIConfig) : Bool :=
  (c.model == "gpt-3.5-turbo" || c.model == "gpt-4")
    && decide (0 ≤ c.temperature) && decide (c.temperature ≤ 2)
    && decide (0 ≤ c.top_p) && decide (c.top_p ≤ 1)
    && decide (-2 ≤ c.presence_penalty) && decide (c.presence_penalty ≤ 2)
    && decide (-2 ≤ c.frequency_penalty) && decide (c.frequency_penalty ≤ 2)
    && (match c.max_tokens with | none => true | some k => decide (1 ≤ k))

/-- Constructing an OpenAIConfig under pydantic validation. -/
def OpenAIConfig.construct (c : OpenAIConfig) : Except PyError OpenAIConfig :=
  if c.validate then .ok c else .error (.validationError "OpenAIConfig validation failed")

/-- The documented ranges of the openai fields, as the spec states them. -/
def OpenAIConfig.InRange (c : OpenAIConfig) : Prop :=
  (c.model = "gpt-3.5-turbo" ∨ c.model = "gpt-4")
    ∧ 0 ≤ c.temperature ∧ c.temperature ≤ 2
    ∧ 0 ≤ c.top_p ∧ c.top_p ≤ 1
    ∧ (-2 ≤ c.presence_penalty) ∧ c.presence_penalty ≤ 2
    ∧ (-2 ≤ c.frequency_penalty) ∧ c.frequency_penalty ≤ 2
    ∧ (c.max_tokens = none ∨ ∃ k, c.max_tokens = some k ∧ 1 ≤ k)

/-- ChatConfig (chat_config_new.py): provider plus the two optional
per-provider sub-configs; gemini_config has a default instance. -/
structure ChatConfig where
  provider : Provider := .gemini
  openai_config : Option OpenAIConfig := none
  gemini_config : Option GeminiConfig := some {}
deriving DecidableEq, Repr

/-- Python `a or b` on strings and None: a unless a is None or empty. -/
def pyOrStr (a b : Option String) : Option String :=
  match a with
  | some s => if s = "" then b else some s
  | none => b

/-- ChatConfig.get_api_key: the explicit key of the selected provider
sub-config, Python-or the provider environment variable.  Accessing a
missing sub-config raises AttributeError, as the attribute access would. -/
def ChatConfig.get_api_key (c : ChatConfig) (envOpenAI envGoogle : Option String) :
    Except PyError (Option String) :=
  match c.provider with
  | .openai =>
    match c.openai_config with
    | none => .error (.attributeError "NoneType object has no attribute api_key")
    | some oc => .ok (pyOrStr oc.api_key envOpenAI)
  | .gemini =>
    match c.gemini_config with
    | none => .error (.attributeError "NoneType object has no attribute api_key")
    | some gc => .ok (pyOrStr gc.api_key envGoogle)

/-- The backend oracles one Chat construction interacts with. -/
structure Backend where
  availableModels : List String
  probe : String → GenResult
  start : String → Except String Unit
  sendSys : String → GenResult

/-- Chat._initialize_chat (chat_new.py): on the gemini branch resolve the
key (explicit, else environment, twice as in the source), fail on a missing
or empty key, run init_gemini, bind the session through get_gemini_chat on
the configured model, then send the optional system message.  Any other
provider raises NotImplementedError before touching the backend.  The
result is the name of the model the session got bound to. -/
def initChat (c : ChatConfig) (system_message : Option String)
    (envGoogle : Option String) (b : Backend) : Except PyError String :=
  match c.provider with
  | .gemini =>
    match c.gemini_config with
    | none => .error (.attributeError "NoneType object has no attribute api_key")
    | some gc =>
      match pyOrStr (pyOrStr gc.api_key envGoogle) envGoogle with
      | none => .error (.valueError "No Gemini API key provided")
      | some k =>
        if k = "" then .error (.valueError "No Gemini API key provided")
        else
          match init_gemini (some k) envGoogle b.availableModels b.probe with
          | .error e => .error e
          | .ok _ =>
            match get_gemini_chat gc.model b.start with
            | .error e => .error e
            | .ok bound =>
              match system_message with
              | none => .ok bound
              | some sys =>
                match b.sendSys sys with
                | .raise e => .error (.exceptionError e)
                | .ok _ _ => .ok bound
  | .openai => .error (.notImplementedError "Only Gemini provider is currently supported")

/-- Chat.reset (chat_new.py): re-run _initialize_chat with the held
configuration. -/
def Chat.reset (c : ChatConfig) (system_message : Option String)
    (envGoogle : Option String) (b : Backend) : Except PyError String :=
  initChat c system_message envGoogle b

section WalkLemmas

theorem probeWalk_append (probe : String → GenResult) :
    ∀ (pre : List String) (m : String) (post : List String),
    (∀ x ∈ pre, probeOk (probe x) = false) → probeOk (probe m) = true →
    probeWalk probe (pre ++ m :: post) = some m := by
  intro pre
  induction pre with
  | nil => intro m post _ hm; simp [probeWalk, hm]
  | cons a as ih =>
    intro m post hpre hm
    have ha : probeOk (probe a) = false := hpre a (by simp)
    simpa [probeWalk, ha] using ih m post (fun x hx => hpre x (by simp [hx])) hm

theorem probeAttempts_append (probe : String → GenResult) :
    ∀ (pre : List String) (m : String) (post : List String),
    (∀ x ∈ pre, probeOk (probe x) = false) → probeOk (probe m) = true →
    probeAttempts probe (pre ++ m :: post) = pre ++ [m] := by
  intro pre
  induction pre with
  | nil => intro m post _ hm; simp [probeAttempts, hm]
  | cons a as ih =>
    intro m post hpre hm
    have ha : probeOk (probe a) = false := hpre a (by simp)
    simpa [probeAttempts, ha] using ih m post (fun x hx => hpre x (by simp [hx])) hm

theorem probeWalk_eq_some (probe : String → GenResult) :
    ∀ (l : List String) (w : String), probeWalk probe l = some w →
    w ∈ l ∧ probeOk (probe w) = true := by
  intro l
  induction l with
  | nil => intro w h; simp [probeWalk] at h
  | cons a as ih =>
    intro w h
    by_cases ha : probeOk (probe a)
    · simp [probeWalk, ha] at h
      subst h
      exact ⟨List.mem_cons_self a as, ha⟩
    · simp [probeWalk, ha] at h
      obtain ⟨hmem, hok⟩ := ih w h
      exact ⟨List.mem_cons_of_mem a hmem, hok⟩

theorem probeWalk_eq_none_iff (probe : String → GenResult) (l : List String) :
    probeWalk probe l = none ↔ ∀ m ∈ l, probeOk (probe m) = false := by
  induction l with
  | nil => simp [probeWalk]
  | cons a as ih =>
    by_cases h : probeOk (probe a)
    · simp [probeWalk, h]
    · simp [probeWalk, h, ih]

theorem chatWalk_append (start : String → Except String Unit) (m : String)
    (hm : start m = .ok ()) :
    ∀ (pre post : List String) (last : Option String),
    (∀ x ∈ pre, ∃ e, start x = .error e) →
    chatWalk start (pre ++ m :: post) last = .ok m := by
  intro pre
  induction pre with
  | nil => intro post last _; simp [chatWalk, hm]
  | cons a as ih =>
    intro post last hpre
    obtain ⟨e, he⟩ := hpre a (by simp)
    simpa [chatWalk, he] using ih post (some e) (fun x hx => hpre x (by simp [hx]))

theorem chatWalk_error_iff (start : String → Except String Unit) (l : List String) :
    ∀ last : Option String,
    (∃ err, chatWalk start l last = .error err) ↔ ∀ m ∈ l, ∃ e, start m = .error e := by
  induction l with
  | nil => intro last; simp [chatWalk]
  | cons a as ih =>
    intro last
    cases ha : start a with
    | ok u => cases u; simp [chatWalk, ha]
    | error e => simp [chatWalk, ha, ih (some e)]

theorem fallbackWalk_append (gen : String → GenResult) (m : String) (t : String)
    (hm : usableText (gen m) = some t) :
    ∀ (pre post : List String) (last : Option String),
    (∀ x ∈ pre, usableText (gen x) = none) →
    fallbackWalk gen (pre ++ m :: post) last = .ok t := by
  intro pre
  induction pre with
  | nil =>
    intro post last _
    cases hg : gen m with
    | raise e => rw [hg] at hm; simp [usableText] at hm
    | ok truthy tx =>
      rw [hg] at hm
      by_cases ht : truthy
      · by_cases htx : tx = ""
        · simp [usableText, ht, htx] at hm
        · simp [usableText, ht, htx] at hm
          subst hm
          simp [fallbackWalk, hg, ht, htx]
      · simp [usableText, ht] at hm
  | cons a as ih =>
    intro post last hpre
    have ha := hpre a (List.mem_cons_self a as)
    have hrest : ∀ x ∈ as, usableText (gen x) = none :=
      fun x hx => hpre x (List.mem_cons_of_mem a hx)
    cases hg : gen a with
    | raise e => simpa [fallbackWalk, hg] using ih post (some e) hrest
    | ok truthy tx =>
      rw [hg] at ha
      by_cases ht : truthy <;> by_cases htx : tx = "" <;>
          simp [usableText, ht, htx] at ha <;>
        simpa [fallbackWalk, hg, ht, htx] using ih post last hrest

theorem fallbackWalk_eq_ok (gen : String → GenResult) :
    ∀ (l : List String) (last : Option String) (t : String),
    fallbackWalk gen l last = .ok t → ∃ m ∈ l, usableText (gen m) = some t := by
  intro l
  induction l with
  | nil => intro last t h; simp [fallbackWalk] at h
  | cons a as ih =>
    intro last t h
    cases ha : gen a with
    | raise e =>
      simp only [fallbackWalk, ha] at h
      obtain ⟨m, hm, hu⟩ := ih (some e) t h
      exact ⟨m, List.mem_cons_of_mem a hm, hu⟩
    | ok truthy tx =>
      by_cases ht : truthy
      · by_cases htx : tx = ""
        · simp only [fallbackWalk, ha, ht, htx] at h
          rw [if_neg (by simp [htx])] at h
          obtain ⟨m, hm, hu⟩ := ih last t h
          exact ⟨m, List.mem_cons_of_mem a hm, hu⟩
        · simp only [fallbackWalk, ha] at h
          rw [if_pos (by simp [ht, htx])] at h
          cases h
          exact ⟨a, List.mem_cons_self a as, by simp [usableText, ha, ht, htx]⟩
      · simp only [fallbackWalk, ha] at h
        rw [if_neg (by simp [ht])] at h
        obtain ⟨m, hm, hu⟩ := ih last t h
        exact ⟨m, List.mem_cons_of_mem a hm, hu⟩

theorem fallbackWalk_error_iff (gen : String → GenResult) (l : List String) :
    ∀ last : Option String,
    (∃ err, fallbackWalk gen l last = .error err) ↔ ∀ m ∈ l, usableText (gen m) = none := by
  induction l with
  | nil => intro last; simp [fallbackWalk]
  | cons a as ih =>
    intro last
    cases ha : gen a with
    | raise e => simp [fallbackWalk, ha, ih (some e), usableText]
    | ok truthy tx =>
      by_cases ht : truthy <;> by_cases htx : tx = "" <;>
        simp [fallbackWalk, usableText, ha, ht, htx, ih last]

end WalkLemmas

theorem pySplitAux_length (l : List Char) :
    ∀ acc : List Char,
    (pySplitAux l acc).length
      = wordCountAux l (!acc.isEmpty) + (if acc.isEmpty then 0 else 1) := by
  induction l with
  | nil =>
    intro acc
    cases acc <;> simp [pySplitAux, wordCountAux]
  | cons c rest ih =>
    intro acc
    by_cases hs : isPySpace c
    · cases acc with
      | nil => simp [pySplitAux, wordCountAux, hs, ih []]
      | cons x xs => simp [pySplitAux, wordCountAux, hs, ih [], Nat.add_comm]
    · cases acc with
      | nil => simp [pySplitAux, wordCountAux, hs, ih [c]]
      | cons x xs => simp [pySplitAux, wordCountAux, hs, ih (c :: x :: xs)]

theorem count_tokens_eq_wordCount (s : String) :
    count_tokens s = wordCount s := by
  simpa [count_tokens, wordCount] using pySplitAux_length s.data []

theorem gemini_validate_iff (c : GeminiConfig) : c.validate = true ↔ c.InRange := by
  simp [GeminiConfig.validate, GeminiConfig.InRange, and_assoc]

theorem openai_validate_iff (c : OpenAIConfig) : c.validate = true ↔ c.InRange := by
  cases hmt : c.max_tokens with
  | none => simp [OpenAIConfig.validate, OpenAIConfig.InRange, hmt, and_assoc]
  | some k => simp [OpenAIConfig.validate, OpenAIConfig.InRange, hmt, and_assoc]

/-- C1: on a ready session, if the stateful bound-session attempt raises,
send_message falls back to the stateless single-turn walk over
sendFallbackModels, which is the same priority list as the one probed at
initialization; the first candidate with a truthy, non-empty response is
returned as is, and if every candidate raises the call fails with the
wrapper exception carrying the last underlying error message. -/
theorem C1_send_fallback :
    sendFallbackModels = initProbeModels
    ∧ ∀ (chat : String → GenResult) (gen : String → String → GenResult)
        (msg : String) (s : Bool) (e : String),
        chat msg = GenResult.raise e →
        (get_chat_response chat gen msg s
            = match fallbackWalk (fun m => gen m msg) sendFallbackModels none with
              | .ok t => .ok t
              | .error er => .error (.exceptionError ("Failed to get chat response: " ++ er.msg)))
        ∧ (∀ (pre : List String) (m : String) (post : List String) (t : String),
            sendFallbackModels = pre ++ m :: post →
            (∀ x ∈ pre, usableText (gen x msg) = none) →
            usableText (gen m msg) = some t →
            get_chat_response chat gen msg s = .ok t)
        ∧ (∀ e1 e2 e3 : String,
            gen "models/gemini-pro" msg = .raise e1 →
            gen "models/gemini-2.0-flash" msg = .raise e2 →
            gen "models/gemini-2.0-flash-lite" msg = .raise e3 →
            get_chat_response chat gen msg s
              = .error (.exceptionError
                  ("Failed to get chat response: "
                    ++ ("Failed to get response from any model: " ++ e3)))) := by
  refine ⟨rfl, ?_⟩
  intro chat gen msg s e hchat
  have husable : usableText (chat msg) = none := by simp [usableText, hchat]
  refine ⟨?_, ?_, ?_⟩
  · cases hw : fallbackWalk (fun m => gen m msg) sendFallbackModels none with
    | ok t => simp [get_chat_response, husable, hw]
    | error er => simp [get_chat_response, husable, hw]
  · intro pre m post t hlist hpre hm
    have hwalk : fallbackWalk (fun m2 => gen m2 msg) sendFallbackModels none = .ok t := by
      rw [hlist]
      exact fallbackWalk_append _ m t hm pre post none hpre
    simp [get_chat_response, husable, hwalk]
  · intro e1 e2 e3 h1 h2 h3
    have hwalk : fallbackWalk (fun m => gen m msg) sendFallbackModels none
        = .error (.valueError ("Failed to get response from any model: " ++ e3)) := by
      simp [sendFallbackModels, fallbackWalk, h1, h2, h3, strOfLastError]
    simp [get_chat_response, husable, hwalk, PyError.msg]

/-- C1 witness: a concrete raising session falling back to the first
candidate model and returning its text. -/
theorem C1_send_fallback_witness :
    get_chat_response (fun _ => GenResult.raise "session down")
      (fun _ _ => GenResult.ok true "pong") "hello" false = .ok "pong" :=
  (C1_send_fallback.2 (fun _ => GenResult.raise "session down")
      (fun _ _ => GenResult.ok true "pong") "hello" false "session down" rfl).2.1
    [] "models/gemini-pro" ["models/gemini-2.0-flash", "models/gemini-2.0-flash-lite"]
    "pong" rfl (by intro x hx; cases hx) (by decide)

/-- C2 counterexample: with the hard-coded first candidate raising on
probe, the probe walk of initialize selects models/gemini-2.0-flash, yet
the session gets bound to gemini-pro, the head of the separate
get_gemini_chat candidate list - so the first candidate to pass the probe
does not become the bound model. -/
theorem C2_counterexample :
    probeWalk
        (fun m => if m = "models/gemini-pro" then GenResult.raise "down"
          else GenResult.ok true "pong")
        initProbeModels = some "models/gemini-2.0-flash"
    ∧ initChat { provider := .gemini, gemini_config := some { api_key := some "KEY" } } none none
        { availableModels := ["models/gemini-2.0-flash"],
          probe := fun m => if m = "models/gemini-pro" then GenResult.raise "down"
            else GenResult.ok true "pong",
          start := fun _ => Except.ok (),
          sendSys := fun _ => GenResult.raise "unused" }
        = .ok "gemini-pro"
    ∧ ("gemini-pro" : String) ≠ "models/gemini-2.0-flash" := by
  refine ⟨rfl, rfl, by decide⟩

/-- C2 (amended): during initialization the probe walk does attempt
candidates strictly in priority-list order, stopping right after the first
truthy probe response; the bound session model, however, is chosen by a
separate walk over chatCandidates (the configured model first, then the
hard-coded list), binding the first candidate whose chat construction
succeeds, independent of the probe winner. -/
theorem C2_amended_probe_order_and_binding :
    (∀ (probe : String → GenResult) (pre : List String) (m : String) (post : List String),
        initProbeModels = pre ++ m :: post →
        (∀ x ∈ pre, probeOk (probe x) = false) → probeOk (probe m) = true →
        probeWalk probe initProbeModels = some m
          ∧ probeAttempts probe initProbeModels = pre ++ [m])
    ∧ (∀ (gc : GeminiConfig) (k : String) (envG : Option String) (b : Backend)
        (pre : List String) (m : String) (post : List String),
        gc.api_key = some k → k ≠ "" →
        b.availableModels ≠ [] →
        (∃ w, probeWalk b.probe initProbeModels = some w) →
        chatCandidates gc.model = pre ++ m :: post →
        (∀ x ∈ pre, ∃ e, b.start x = .error e) →
        b.start m = .ok () →
        initChat { provider := .gemini, gemini_config := some gc } none envG b = .ok m) := by
  constructor
  · intro probe pre m post hlist hpre hm
    rw [hlist]
    exact ⟨probeWalk_append probe pre m post hpre hm,
      probeAttempts_append probe pre m post hpre hm⟩
  · intro gc k envG b pre m post hkey hk ham hex hcand hpre hm
    obtain ⟨w, hw⟩ := hex
    have hbind : get_gemini_chat gc.model b.start = .ok m := by
      rw [get_gemini_chat, hcand]
      exact chatWalk_append b.start m hm pre post none hpre
    simp [initChat, hkey, hk, pyOrStr, init_gemini, ham, hw, hbind]

/-- C2 amended witness: with every probe truthy and every construction
succeeding, the probe stops at the first hard-coded candidate and the
session is bound to the configured model gemini-pro. -/
theorem C2_amended_witness :
    (probeWalk (fun _ => GenResult.ok true "y") initProbeModels = some "models/gemini-pro"
      ∧ probeAttempts (fun _ => GenResult.ok true "y") initProbeModels = ["models/gemini-pro"])
    ∧ initChat { provider := .gemini, gemini_config := some { api_key := some "KEY" } } none none
        { availableModels := ["m"],
          probe := fun _ => GenResult.ok true "y",
          start := fun _ => Except.ok (),
          sendSys := fun _ => GenResult.raise "unused" }
        = .ok "gemini-pro" :=
  ⟨C2_amended_probe_order_and_binding.1 (fun _ => GenResult.ok true "y")
      [] "models/gemini-pro" ["models/gemini-2.0-flash", "models/gemini-2.0-flash-lite"]
      rfl (by intro x hx; cases hx) (by decide),
    C2_amended_probe_order_and_binding.2 { api_key := some "KEY" } "KEY" none
      _ [] "gemini-pro"
      ["models/gemini-pro", "models/gemini-2.0-flash", "models/gemini-2.0-flash-lite"]
      rfl (by decide) (by decide) ⟨"models/gemini-pro", by decide⟩ rfl
      (by intro x hx; cases hx) rfl⟩

/-- C3 counterexample: when every candidate raises during initialize, the
resulting error is one fixed ValueError that does not depend on - hence
cannot carry - the underlying per-candidate errors: two runs whose last
underlying errors differ produce the identical exception. -/
theorem C3_counterexample :
    init_gemini (some "KEY") none ["m"] (fun _ => GenResult.raise "boom-ALPHA")
      = init_gemini (some "KEY") none ["m"] (fun _ => GenResult.raise "boom-BETA")
    ∧ init_gemini (some "KEY") none ["m"] (fun _ => GenResult.raise "boom-ALPHA")
        = .error (.valueError
            "Failed to initialize Gemini API: Failed to initialize with any available model")
    ∧ ("boom-ALPHA" : String) ≠ "boom-BETA" :=
  ⟨rfl, rfl, by decide⟩

/-- C3 (amended): if every candidate in the priority list fails its probe
during initialize, the call fails with a ValueError whose message is the
fixed string "Failed to initialize Gemini API: Failed to initialize with
any available model"; the per-candidate errors are swallowed and not
carried in the exception. -/
theorem C3_amended_fixed_error :
    ∀ (k : String) (envG : Option String) (am : List String) (probe : String → GenResult),
      k ≠ "" → am ≠ [] →
      (∀ m ∈ initProbeModels, probeOk (probe m) = false) →
      init_gemini (some k) envG am probe
        = .error (.valueError
            "Failed to initialize Gemini API: Failed to initialize with any available model") := by
  intro k envG am probe hk ham hall
  have hw : probeWalk probe initProbeModels = none := (probeWalk_eq_none_iff probe _).mpr hall
  simp [init_gemini, hk, ham, hw]

/-- C3 amended witness: a concrete run in which all probes raise. -/
theorem C3_amended_fixed_error_witness :
    init_gemini (some "KEY") none ["m"] (fun _ => GenResult.raise "quota")
      = .error (.valueError
          "Failed to initialize Gemini API: Failed to initialize with any available model") :=
  C3_amended_fixed_error "KEY" none ["m"] (fun _ => GenResult.raise "quota")
    (by decide) (by decide) (by intro m hm; rfl)

/-- C4: a configuration constructs successfully exactly when every field
is inside its documented per-provider range; in particular a gemini
temperature of 1.5 fails while an openai temperature of 1.5 succeeds. -/
theorem C4_config_validation :
    (∀ c : GeminiConfig, (∃ c2, c.construct = Except.ok c2) ↔ c.InRange)
    ∧ (∀ c : OpenAIConfig, (∃ c2, c.construct = Except.ok c2) ↔ c.InRange)
    ∧ GeminiConfig.construct { temperature := 3 / 2 }
        = .error (.validationError "GeminiConfig validation failed")
    ∧ OpenAIConfig.construct { temperature := 3 / 2 } = .ok { temperature := 3 / 2 } := by
  have hg : ¬ ({ temperature := 3 / 2 : GeminiConfig }).validate = true := by
    rw [gemini_validate_iff]
    norm_num [GeminiConfig.InRange]
  have ho : ({ temperature := 3 / 2 : OpenAIConfig }).validate = true := by
    rw [openai_validate_iff]
    norm_num [OpenAIConfig.InRange]
  refine ⟨?_, ?_, by simp [GeminiConfig.construct, hg], by simp [OpenAIConfig.construct, ho]⟩
  · intro c
    constructor
    · rintro ⟨c2, hc⟩
      by_cases h : c.validate
      · exact (gemini_validate_iff c).mp h
      · simp [GeminiConfig.construct, h] at hc
    · intro h
      exact ⟨c, by simp [GeminiConfig.construct, (gemini_validate_iff c).mpr h]⟩
  · intro c
    constructor
    · rintro ⟨c2, hc⟩
      by_cases h : c.validate
      · exact (openai_validate_iff c).mp h
      · simp [OpenAIConfig.construct, h] at hc
    · intro h
      exact ⟨c, by simp [OpenAIConfig.construct, (openai_validate_iff c).mpr h]⟩

/-- C4 witness: the default gemini configuration is inside the documented
ranges and constructs successfully. -/
theorem C4_config_validation_witness :
    ∃ c2, GeminiConfig.construct {} = Except.ok c2 :=
  (C4_config_validation.1 {}).mpr (by norm_num [GeminiConfig.InRange])

/-- C5: when an explicit non-empty API key and the provider environment
variable are both present, get_api_key returns the explicit key, for
either provider. -/
theorem C5_explicit_key_wins :
    ∀ (gc : GeminiConfig) (oc : OpenAIConfig) (envO envG k : String),
      k ≠ "" → gc.api_key = some k → oc.api_key = some k →
      (ChatConfig.get_api_key
          { provider := .gemini, gemini_config := some gc } (some envO) (some envG)
          = .ok (some k))
      ∧ (ChatConfig.get_api_key
          { provider := .openai, openai_config := some oc } (some envO) (some envG)
          = .ok (some k)) := by
  intro gc oc envO envG k hk hgc hoc
  constructor <;> simp [ChatConfig.get_api_key, pyOrStr, hgc, hoc, hk]

/-- C5 witness: a concrete explicit key beating a present environment key. -/
theorem C5_explicit_key_wins_witness :
    ChatConfig.get_api_key
        { provider := .gemini, gemini_config := some { api_key := some "EXPLICIT" } }
        (some "ENV-O") (some "ENV-G")
      = .ok (some "EXPLICIT") :=
  (C5_explicit_key_wins { api_key := some "EXPLICIT" } { api_key := some "EXPLICIT" }
      "ENV-O" "ENV-G" "EXPLICIT" (by decide) rfl rfl).1

/-- C6: in each of the three fallback walks a single failing candidate is
swallowed and the walk proceeds to the next candidate, and an error
surfaces exactly when the whole candidate list is exhausted without a
usable response. -/
theorem C6_walk_exhaustion :
    (∀ (k : String) (envG : Option String) (am : List String) (probe : String → GenResult),
        k ≠ "" → am ≠ [] →
        ((∃ err, init_gemini (some k) envG am probe = .error err)
          ↔ ∀ m ∈ initProbeModels, probeOk (probe m) = false))
    ∧ (∀ (model : String) (start : String → Except String Unit),
        (∃ err, get_gemini_chat model start = .error err)
          ↔ ∀ m ∈ chatCandidates model, ∃ e, start m = .error e)
    ∧ (∀ (chat : String → GenResult) (gen : String → String → GenResult)
        (msg : String) (s : Bool),
        usableText (chat msg) = none →
        ((∃ err, get_chat_response chat gen msg s = .error err)
          ↔ ∀ m ∈ sendFallbackModels, usableText (gen m msg) = none))
    ∧ (∀ (probe : String → GenResult) (a : String) (rest : List String),
        probeOk (probe a) = false →
        probeWalk probe (a :: rest) = probeWalk probe rest)
    ∧ (∀ (start : String → Except String Unit) (a : String) (rest : List String)
        (last : Option String) (e : String),
        start a = .error e →
        chatWalk start (a :: rest) last = chatWalk start rest (some e))
    ∧ (∀ (gen : String → GenResult) (a : String) (rest : List String)
        (last : Option String) (e : String),
        gen a = .raise e →
        fallbackWalk gen (a :: rest) last = fallbackWalk gen rest (some e)) := by
  refine ⟨?_, ?_, ?_, ?_, ?_, ?_⟩
  · intro k envG am probe hk ham
    cases hw : probeWalk probe initProbeModels with
    | none =>
      simp only [init_gemini]
      simp [hk, ham, hw]
      exact (probeWalk_eq_none_iff probe _).mp hw
    | some w =>
      simp only [init_gemini]
      simp [hk, ham, hw]
      obtain ⟨hmem, hok⟩ := probeWalk_eq_some probe initProbeModels w hw
      exact ⟨w, hmem, hok⟩
  · intro model start
    simpa [get_gemini_chat] using chatWalk_error_iff start (chatCandidates model) none
  · intro chat gen msg s hnone
    have hiff := fallbackWalk_error_iff (fun m => gen m msg) sendFallbackModels none
    cases hw : fallbackWalk (fun m => gen m msg) sendFallbackModels none with
    | ok t =>
      simp [get_chat_response, hnone, hw]
      obtain ⟨m, hmem, hu⟩ := fallbackWalk_eq_ok (fun m => gen m msg) sendFallbackModels none t hw
      exact ⟨m, hmem, by simp [hu]⟩
    | error er =>
      simp [get_chat_response, hnone, hw]
      exact hiff.mp ⟨er, hw⟩
  · intro probe a rest h
    simp [probeWalk, h]
  · intro start a rest last e h
    simp [chatWalk, h]
  · intro gen a rest last e h
    simp [fallbackWalk, h]

/-- C6 witness: a concrete initialize run in which every probe raises
surfaces an error, derived from the exhaustion equivalence. -/
theorem C6_walk_exhaustion_witness :
    ∃ err, init_gemini (some "KEY") none ["m"] (fun _ => GenResult.raise "x") = .error err :=
  (C6_walk_exhaustion.1 "KEY" none ["m"] (fun _ => GenResult.raise "x")
      (by decide) (by decide)).mpr (by intro m hm; rfl)

/-- C7: the usage estimate is a pure function of the two texts: the token
estimates are the whitespace-split word counts, the cost is the fixed
per-1000 pricing of the two counts, and the cost is linear in each of the
two token counts independently. -/
theorem C7_estimate_usage :
    (∀ input_text output_text : String,
        estimate_usage input_text output_text
          = ((wordCount input_text, wordCount output_text),
              ((count_tokens input_text : ℤ) : ℚ) * (1 / 4000000)
                + ((count_tokens output_text : ℤ) : ℚ) * (1 / 2000000)))
    ∧ (∀ i j o : ℤ, estimate_cost (i + j) o = estimate_cost i o + estimate_cost j 0)
    ∧ (∀ i o p : ℤ, estimate_cost i (o + p) = estimate_cost i o + estimate_cost 0 p) := by
  refine ⟨?_, ?_, ?_⟩
  · intro it ot
    simp only [estimate_usage, Prod.mk.injEq]
    refine ⟨⟨count_tokens_eq_wordCount it, count_tokens_eq_wordCount ot⟩, ?_⟩
    simp only [estimate_cost]
    push_cast
    ring
  · intro i j o
    simp only [estimate_cost]
    push_cast
    ring
  · intro i o p
    simp only [estimate_cost]
    push_cast
    ring

/-- C8: the stream flag has no distinct code path: for every session state
and message, dispatch with stream set equals dispatch with stream unset,
both at get_chat_response and at send_message. -/
theorem C8_stream_no_effect :
    ∀ (chat : String → GenResult) (gen : String → String → GenResult) (message : String),
      get_chat_response chat gen message true = get_chat_response chat gen message false
      ∧ send_message chat gen message true = send_message chat gen message false :=
  fun _ _ _ => ⟨rfl, rfl⟩

/-- C9 counterexample: the empty message is dispatched to the backend
session rather than rejected or treated as a no-op - the result of send on
the empty string is exactly the backend session reply, so two backends
answering the empty message differently give different results. -/
theorem C9_counterexample :
    send_message (fun _ => GenResult.ok true "REPLY-ONE")
        (fun _ _ => GenResult.raise "x") "" false = .ok "REPLY-ONE"
    ∧ send_message (fun _ => GenResult.ok true "REPLY-TWO")
        (fun _ _ => GenResult.raise "x") "" false = .ok "REPLY-TWO"
    ∧ (Except.ok "REPLY-ONE" : Except PyError String) ≠ .ok "REPLY-TWO" :=
  ⟨rfl, rfl, by simp⟩

/-- C9 (amended): an empty-string input to send is not rejected and is not
a no-op: it is dispatched to the bound backend session unchanged, and
whatever usable text the session returns for it is the result. -/
theorem C9_amended_empty_dispatched :
    ∀ (chat : String → GenResult) (gen : String → String → GenResult) (s : Bool) (t : String),
      usableText (chat "") = some t →
      send_message chat gen "" s = .ok t := by
  intro chat gen s t husable
  simp [send_message, get_chat_response, husable]

/-- C9 amended witness: a concrete backend answering the empty message. -/
theorem C9_amended_empty_dispatched_witness :
    send_message (fun _ => GenResult.ok true "EMPTY-ANSWER")
      (fun _ _ => GenResult.raise "x") "" false = .ok "EMPTY-ANSWER" :=
  C9_amended_empty_dispatched (fun _ => GenResult.ok true "EMPTY-ANSWER")
    (fun _ _ => GenResult.raise "x") false "EMPTY-ANSWER" (by decide)

/-- C10: for every configuration whose provider is not gemini, Chat
construction and every reset raise NotImplementedError, and the outcome is
independent of the backend - no backend client is configured and no
session handle is bound. -/
theorem C10_openai_unreachable :
    ∀ (c : ChatConfig) (sys envG : Option String) (b b2 : Backend),
      c.provider ≠ Provider.gemini →
      initChat c sys envG b
          = .error (.notImplementedError "Only Gemini provider is currently supported")
      ∧ Chat.reset c sys envG b
          = .error (.notImplementedError "Only Gemini provider is currently supported")
      ∧ initChat c sys envG b = initChat c sys envG b2 := by
  intro c sys envG b b2 h
  have hp : c.provider = Provider.openai := by
    cases hc : c.provider
    · rfl
    · exact absurd hc h
  refine ⟨?_, ?_, ?_⟩ <;> simp [initChat, Chat.reset, hp]

/-- C10 witness: a concrete openai configuration fails construction with
NotImplementedError. -/
theorem C10_openai_unreachable_witness :
    initChat { provider := .openai } none none
        { availableModels := [],
          probe := fun _ => GenResult.raise "",
          start := fun _ => Except.error "",
          sendSys := fun _ => GenResult.raise "" }
      = .error (.notImplementedError "Only Gemini provider is currently supported") :=
  (C10_openai_unreachable { provider := .openai } none none
      { availableModels := [],
        probe := fun _ => GenResult.raise "",
        start := fun _ => Except.error "",
        sendSys := fun _ => GenResult.raise "" }
      { availableModels := [],
        probe := fun _ => GenResult.raise "",
        start := fun _ => Except.error "",
        sendSys := fun _ => GenResult.raise "" }
      (by decide)).1

end ChatBot
